import Mathlib

/-
Verification of the chat-app repository (src/app.py and src/app_ollama.py).

The embedding models Python/JSON values with an inductive `PyValue`,
Python exceptions with `Except String`, and the HTTP backend with a
function from (payload, attempt index) to an attempt outcome.  Side
effects of the retry loop (time.sleep, st.warning, st.error) are
recorded as trace lists in the returned structure.

Modelling notes:
 - `pyStrip` models Python str.strip(): leading and trailing whitespace
   removed from the character sequence (Python strips a slightly larger
   whitespace set; no claim depends on exotic whitespace characters).
 - Python strings are sequences of code points; slicing `s[len(p):]`,
   `startswith` and `len` are modelled on the character list `s.data`.
 - Exception message texts are modelled up to formatting (Python quotes
   type names; the model does not), since no claim depends on the exact
   wording of an exception message, only on which exception path is hit.
 - Python floats appear only inside request payloads that no code path
   inspects; they are modelled as exact rationals.
-/

/-- Python/JSON values as produced by response.json() and used in payloads. -/
inductive PyValue where
  | str (s : String)
  | int (n : Int)
  | float (q : Rat)
  | bool (b : Bool)
  | null
  | list (items : List PyValue)
  | dict (entries : List (String × PyValue))

/-- An ASCII single-quote character, used when rendering Python repr(). -/
def squote : String := String.singleton (Char.ofNat 39)

/-- Python type name of a value, as used in exception messages. -/
def pyTypeName : PyValue → String
  | .str _ => "str"
  | .int _ => "int"
  | .float _ => "float"
  | .bool _ => "bool"
  | .null => "NoneType"
  | .list _ => "list"
  | .dict _ => "dict"

mutual

/-- Python repr() of a value (string escaping not modelled). -/
def pyRepr : PyValue → String
  | .str s => squote ++ s ++ squote
  | .int n => toString n
  | .float q => toString q
  | .bool b => if b then "True" else "False"
  | .null => "None"
  | .list items => "[" ++ pyReprList items ++ "]"
  | .dict es => "\x7b" ++ pyReprDict es ++ "\x7d"

/-- Comma-separated repr of list elements. -/
def pyReprList : List PyValue → String
  | [] => ""
  | [v] => pyRepr v
  | v :: vs => pyRepr v ++ ", " ++ pyReprList vs

/-- Comma-separated repr of dict entries. -/
def pyReprDict : List (String × PyValue) → String
  | [] => ""
  | [(k, v)] => squote ++ k ++ squote ++ ": " ++ pyRepr v
  | (k, v) :: es => squote ++ k ++ squote ++ ": " ++ pyRepr v ++ ", " ++ pyReprDict es

end

/-- Python str() of a value. -/
def pyStr : PyValue → String
  | .str s => s
  | v => pyRepr v

/-- Dictionary lookup: first entry whose key matches. -/
def lookupEntry (es : List (String × PyValue)) (key : String) : Option PyValue :=
  (es.find? (fun e => e.fst == key)).map (fun e => e.snd)

/-- Python equality `key == v` for a string key against a JSON value. -/
def pyEqStr (key : String) : PyValue → Bool
  | .str s => s == key
  | _ => false

/-- Python s.startswith(p): p is an initial segment of s. -/
def pyStartsWith (s p : String) : Bool :=
  p.data.isPrefixOf s.data

/-- Python slicing s[n:] by code points. -/
def pyDrop (s : String) (n : Nat) : String :=
  String.mk (s.data.drop n)

/-- Python s.strip(): leading and trailing whitespace removed. -/
def pyStrip (s : String) : String :=
  String.mk (((s.data.dropWhile Char.isWhitespace).reverse.dropWhile Char.isWhitespace).reverse)

/-- Boolean substring test on character lists. -/
def listContainsSub (needle : List Char) : List Char → Bool
  | [] => needle.isEmpty
  | c :: rest => needle.isPrefixOf (c :: rest) || listContainsSub needle rest

/-- Boolean substring test: does `hay` contain `needle`? -/
def strContains (hay needle : String) : Bool :=
  listContainsSub needle.data hay.data

/-- Python membership test `key in v`.  Defined on dicts (key membership),
lists (element equality) and strings (substring); raises TypeError on
numbers, booleans and None, exactly as Python does. -/
def pyContains (key : String) : PyValue → Except String Bool
  | .dict es => .ok (es.any (fun e => e.fst == key))
  | .list items => .ok (items.any (pyEqStr key))
  | .str s => .ok (strContains s key)
  | v => .error ("TypeError: argument of type " ++ pyTypeName v ++ " is not iterable")

/-- Python subscript `v[key]` with a string key: dict lookup; TypeError on
lists and strings (string keys are not valid indices there). -/
def pySubscriptStr (key : String) : PyValue → Except String PyValue
  | .dict es =>
    match lookupEntry es key with
    | some v => .ok v
    | none => .error ("KeyError: " ++ key)
  | .list _ => .error "TypeError: list indices must be integers or slices, not str"
  | .str _ => .error "TypeError: string indices must be integers"
  | v => .error ("TypeError: " ++ pyTypeName v ++ " object is not subscriptable")

/-- An AttributeError message for calling a method on a value lacking it. -/
def attrError (v : PyValue) (attr : String) : String :=
  "AttributeError: " ++ pyTypeName v ++ " object has no attribute " ++ attr

/-- Python `v.get(key, default)`: dict lookup with default; AttributeError
when the receiver is not a dict. -/
def pyGet (v : PyValue) (key : String) (default : PyValue) : Except String PyValue :=
  match v with
  | .dict es => .ok ((lookupEntry es key).getD default)
  | _ => .error (attrError v "get")

/-- Python truthiness of a value. -/
def pyTruthy : PyValue → Bool
  | .str s => !(s == "")
  | .int n => !(n == 0)
  | .float q => !(q == 0)
  | .bool b => b
  | .null => false
  | .list items => !items.isEmpty
  | .dict es => !es.isEmpty

/-- True exactly when the value is a list with at least one element. -/
def isNonEmptyList : PyValue → Bool
  | .list (_ :: _) => true
  | _ => false

/-- Success test for the exception-modelling monad. -/
def exceptIsOk : Except String String → Bool
  | .ok _ => true
  | .error _ => false

/-
Model of src/app.py.
-/

/-- Outcome of one HTTP POST in query_huggingface: either an HTTP
response (status, text, parsed JSON body) or a raised
requests.exceptions.RequestException with message `msg`. -/
inductive Attempt where
  | resp (status : Nat) (text : String) (body : PyValue)
  | exc (msg : String)

/-- The value returned by query_huggingface together with the trace of
its observable side effects: seconds slept (time.sleep), st.warning
messages and st.error messages, each in order of occurrence. -/
structure QueryOut where
  result : PyValue
  sleeps : List Nat
  warnings : List String
  errors : List String

/-- The dict literal returned on the error paths of query_huggingface. -/
def errDict (msg : String) : PyValue :=
  .dict [("error", .str msg)]

/-- The st.warning text on the 503 retry path of query_huggingface. -/
def loadingMsg (waitTime : Nat) : String :=
  "Model is loading... Retrying in " ++ toString waitTime ++ " seconds"

/-- The st.warning text on the exception retry path of query_huggingface. -/
def retryMsg (attempt maxRetries : Nat) : String :=
  "Request failed, retrying... (" ++ toString (attempt + 1) ++ "/" ++ toString maxRetries ++ ")"

/-- One iteration of the retry loop of query_huggingface at index
`attempt`, given the outcome `a` of the HTTP call and the result `rest`
of continuing the loop with the next attempt.  Mirrors src/app.py lines
29-53: 200 returns the body; 503 sleeps 2^attempt and retries unless on
the final attempt (then the loop just ends); any other status displays
an error and returns at once; a RequestException sleeps 1 second and
retries, or on the final attempt displays and returns the message. -/
def queryStep (maxRetries attempt : Nat) (a : Attempt) (rest : QueryOut) : QueryOut :=
  match a with
  | .resp status _text body =>
    if status = 200 then
      ⟨body, [], [], []⟩
    else if status = 503 then
      if attempt < maxRetries - 1 then
        ⟨rest.result, 2 ^ attempt :: rest.sleeps,
         loadingMsg (2 ^ attempt) :: rest.warnings, rest.errors⟩
      else
        rest
    else
      ⟨errDict ("HTTP " ++ toString status), [], [],
       ["API Error: " ++ toString status ++ " - " ++ _text]⟩
  | .exc msg =>
    if attempt < maxRetries - 1 then
      ⟨rest.result, 1 :: rest.sleeps, retryMsg attempt maxRetries :: rest.warnings, rest.errors⟩
    else
      ⟨errDict msg, [], [], ["Request failed: " ++ msg]⟩

/-- The retry loop `for attempt in range(max_retries)` of
query_huggingface, with `fuel` remaining iterations; when the loop runs
out it returns the final dict with "Max retries exceeded". -/
def queryLoop (payload : PyValue) (backend : PyValue → Nat → Attempt)
    (maxRetries attempt : Nat) : Nat → QueryOut
  | 0 => ⟨errDict "Max retries exceeded", [], [], []⟩
  | fuel + 1 =>
    queryStep maxRetries attempt (backend payload attempt)
      (queryLoop payload backend maxRetries (attempt + 1) fuel)

/-- query_huggingface(payload, max_retries): runs the retry loop from
attempt 0.  The backend is a function from the posted payload and the
attempt index to that attempt's outcome. -/
def query_huggingface (payload : PyValue) (backend : PyValue → Nat → Attempt)
    (maxRetries : Nat) : QueryOut :=
  queryLoop payload backend maxRetries 0 maxRetries

/-
Model of get_ai_response (src/app.py lines 57-91).
-/

/-- The payload built by get_ai_response (src/app.py lines 61-69). -/
def buildPayload (userInput : String) : PyValue :=
  .dict [("inputs", .str userInput),
         ("parameters", .dict
           [("max_length", .int 100),
            ("temperature", .float (7 / 10)),
            ("do_sample", .bool true),
            ("pad_token_id", .int 50256)])]

/-- Placeholder returned when the stripped, trimmed reply is empty. -/
def notSureMsg : String :=
  "I" ++ squote ++ "m not sure how to respond to that."

/-- Generic string returned when the reply is not a non-empty list. -/
def didntGetMsg : String :=
  "I didn" ++ squote ++ "t get a proper response. Please try again."

/-- The try-block of get_ai_response (src/app.py lines 76-88): on a
non-empty list, reads generated_text from the first element (default ""),
strips a leading echo of the prompt, trims whitespace, and falls back to
the placeholder when empty; anything else yields the generic string.
Exceptions (reading .get off a non-dict, calling startswith on a
non-string) surface as `Except.error`, to be caught by the caller. -/
def extractTry (userInput : String) (result : PyValue) : Except String String :=
  match result with
  | .list (first :: _) =>
    match pyGet first "generated_text" (.str "") with
    | .error e => .error e
    | .ok (.str g) =>
      let response :=
        if pyStartsWith g userInput then pyStrip (pyDrop g userInput.length) else pyStrip g
      .ok (if response = "" then notSureMsg else response)
    | .ok v => .error (attrError v "startswith")
  | _ => .ok didntGetMsg

/-- The response-extraction part of get_ai_response (src/app.py lines
73-91): the `"error" in result` check and error branch run outside the
try block (their exceptions propagate); exceptions inside the try block
are caught and formatted. -/
def extractResponse (userInput : String) (result : PyValue) : Except String String :=
  match pyContains "error" result with
  | .error e => .error e
  | .ok true =>
    match pySubscriptStr "error" result with
    | .error e => .error e
    | .ok v => .ok ("Sorry, I encountered an error: " ++ pyStr v)
  | .ok false =>
    match extractTry userInput result with
    | .ok s => .ok s
    | .error e => .ok ("Error processing response: " ++ e)

/-- get_ai_response(user_input): builds the payload, queries the backend
with the default 3 attempts, and extracts a display string from the
result.  `Except.error` marks an uncaught Python exception. -/
def get_ai_response (userInput : String) (backend : PyValue → Nat → Attempt) :
    Except String String :=
  extractResponse userInput (query_huggingface (buildPayload userInput) backend 3).result

/-
Model of the conversation log in main (src/app.py lines 112-143).
-/

/-- One chat message: st.session_state.messages holds dicts with keys
"role" and "content". -/
structure Turn where
  role : String
  content : String

/-- A user interaction in main: the Clear Chat button or a chat-input
submission. -/
inductive UiEvent where
  | clearChat
  | submit (prompt : String)

/-- The log after main appends the user turn (src/app.py line 130). -/
def afterUserTurn (log : List Turn) (prompt : String) : List Turn :=
  log ++ [⟨"user", prompt⟩]

/-- The session log after one interaction: Clear Chat resets it to [];
a submission appends the user turn, then derives the assistant response
and appends it (src/app.py lines 128-143).  If response derivation
raises, the script run aborts after the user turn was already appended. -/
def stepSession (backend : PyValue → Nat → Attempt) (log : List Turn) :
    UiEvent → List Turn
  | .clearChat => []
  | .submit prompt =>
    match get_ai_response prompt backend with
    | .ok response => afterUserTurn log prompt ++ [⟨"assistant", response⟩]
    | .error _ => afterUserTurn log prompt

/-
Model of src/app_ollama.py.
-/

/-- Outcome of one HTTP call to the Ollama server: an HTTP response
(status, text, parsed JSON body), or one of the exception kinds that
query_ollama distinguishes (ConnectionError, Timeout, anything else).
requests.exceptions.ConnectionError and Timeout are both subclasses of
RequestException, which check_ollama_status and get_available_models
catch uniformly. -/
inductive OllamaOutcome where
  | resp (status : Nat) (text : String) (body : PyValue)
  | connError (msg : String)
  | timeout (msg : String)
  | otherExc (msg : String)

/-- query_ollama(user_input, model) (src/app_ollama.py lines 49-78): on
HTTP 200 returns the body's "response" field, defaulting to the
"No response generated." placeholder; on any other status returns the
formatted error string; connection, timeout and other exceptions map to
their tailored messages.  A non-dict 200 body makes result.get raise,
which the final `except Exception` turns into the unexpected-error
message.  The prompt and model name only shape the request payload and
never affect the result. -/
def query_ollama (_userInput _model : String) (outcome : OllamaOutcome) : PyValue :=
  match outcome with
  | .resp status text body =>
    if status = 200 then
      match body with
      | .dict es => (lookupEntry es "response").getD (.str "No response generated.")
      | v => .str ("Unexpected error: " ++ attrError v "get")
    else
      .str ("Error: " ++ toString status ++ " - " ++ text)
  | .connError _ =>
    .str "❌ Cannot connect to Ollama. Please make sure Ollama is installed and running."
  | .timeout _ =>
    .str "⏱️ Request timed out. The model might be processing a complex query."
  | .otherExc msg =>
    .str ("Unexpected error: " ++ msg)

/-- True when the outcome is any raised requests exception (the class
caught by `except requests.exceptions.RequestException`). -/
def isRequestExc : OllamaOutcome → Bool
  | .resp _ _ _ => false
  | _ => true

/-- Exception message of a raised outcome. -/
def outcomeMsg : OllamaOutcome → String
  | .resp _ _ _ => ""
  | .connError m => m
  | .timeout m => m
  | .otherExc m => m

/-- check_ollama_status (src/app_ollama.py lines 20-35): a GET against
the tags endpoint; on a response, a dict with reachable / status_code /
body; on any RequestException, a dict with reachable=False and the
error message. -/
def check_ollama_status (outcome : OllamaOutcome) : PyValue :=
  match outcome with
  | .resp status text _ =>
    .dict [("reachable", .bool (status == 200)),
           ("status_code", .int status),
           ("body", .str text)]
  | o => .dict [("reachable", .bool false), ("error", .str (outcomeMsg o))]

/-- The list comprehension `[model["name"] for model in ...]`: each
element must be a dict carrying a "name" key, otherwise the
comprehension raises (modelled as `none`). -/
def modelNames : List PyValue → Option (List PyValue)
  | [] => some []
  | .dict es :: rest =>
    match lookupEntry es "name" with
    | some v => (modelNames rest).map (fun tl => v :: tl)
    | none => none
  | _ :: _ => none

/-- get_available_models (src/app_ollama.py lines 38-47): on HTTP 200
extracts the names from the body's "models" list (`data.get("models", [])`),
and returns [] on a non-200 status; the bare `except` turns every raised
exception - network failure, a non-dict body, a non-list "models" value,
or an element without a "name" key - into [] as well. -/
def get_available_models (outcome : OllamaOutcome) : List PyValue :=
  match outcome with
  | .resp status _ body =>
    if status = 200 then
      match body with
      | .dict es =>
        match lookupEntry es "models" with
        | some (.list ms) => (modelNames ms).getD []
        | some _ => []
        | none => []
      | _ => []
    else []
  | _ => []

/-- The sidebar status line of main (src/app_ollama.py line 117):
`'🟢 Online' if ollama_status else '🔴 Offline'`, gated only on the
truthiness of the dict returned by check_ollama_status. -/
def ollamaStatusLabel (ollamaStatus : PyValue) : String :=
  if pyTruthy ollamaStatus then "🟢 Online" else "🔴 Offline"

/-- The main-area gate of main (src/app_ollama.py line 146):
`if not ollama_status:` blocks the chat UI; again only truthiness. -/
def chatBlocked (ollamaStatus : PyValue) : Bool :=
  !pyTruthy ollamaStatus

/-
Theorems.
-/

/-- Unfolding one iteration of the retry loop. -/
theorem queryLoop_succ (payload : PyValue) (backend : PyValue → Nat → Attempt)
    (maxRetries attempt fuel : Nat) :
    queryLoop payload backend maxRetries attempt (fuel + 1) =
      queryStep maxRetries attempt (backend payload attempt)
        (queryLoop payload backend maxRetries (attempt + 1) fuel) := rfl

/-- Concrete backend: 503 on the first two attempts, 200 with a
well-formed generation list on the third. -/
def bLoadLoadOk : PyValue → Nat → Attempt := fun _ a =>
  if a = 0 then .resp 503 "loading" PyValue.null
  else if a = 1 then .resp 503 "loading" PyValue.null
  else .resp 200 "ok" (PyValue.list [PyValue.dict [("generated_text", PyValue.str "p hello  ")]])

/-- Concrete backend: 503 on every attempt. -/
def bAll503 : PyValue → Nat → Attempt := fun _ _ => .resp 503 "loading" PyValue.null

/-- Concrete backend: 404 with body text "Not Found" on every attempt. -/
def b404 : PyValue → Nat → Attempt := fun _ _ => .resp 404 "Not Found" PyValue.null

/-- Concrete backend: raises a RequestException on every attempt. -/
def bConnFail : PyValue → Nat → Attempt := fun _ _ => .exc "connection refused"

/-- Claim C1: with the default 3 attempts, a backend answering 503, 503,
then 200 with a JSON body makes query_huggingface return that parsed
body (exactly once - the function returns a single value), sleeping
2^0 = 1 second after the first attempt and 2^1 = 2 after the second, so
the total wait is at least 1+2 seconds. -/
theorem hf_503_503_200_returns_body
    (payload : PyValue) (backend : PyValue → Nat → Attempt)
    (t0 t1 t2 : String) (b0 b1 body : PyValue)
    (h0 : backend payload 0 = .resp 503 t0 b0)
    (h1 : backend payload 1 = .resp 503 t1 b1)
    (h2 : backend payload 2 = .resp 200 t2 body) :
    query_huggingface payload backend 3 =
      ⟨body, [1, 2], [loadingMsg 1, loadingMsg 2], []⟩ ∧
    1 + 2 ≤ (query_huggingface payload backend 3).sleeps.sum := by
  have hmain : query_huggingface payload backend 3 =
      ⟨body, [1, 2], [loadingMsg 1, loadingMsg 2], []⟩ := by
    show queryLoop payload backend 3 0 3 = _
    rw [show queryLoop payload backend 3 0 3 =
          queryStep 3 0 (backend payload 0) (queryLoop payload backend 3 1 2) from rfl, h0,
        show queryLoop payload backend 3 1 2 =
          queryStep 3 1 (backend payload 1) (queryLoop payload backend 3 2 1) from rfl, h1,
        show queryLoop payload backend 3 2 1 =
          queryStep 3 2 (backend payload 2) (queryLoop payload backend 3 3 0) from rfl, h2]
    rfl
  refine ⟨hmain, ?_⟩
  rw [hmain]
  show 1 + 2 ≤ ([1, 2] : List Nat).sum
  decide

/-- Witness for C1 at a concrete backend. -/
theorem hf_503_503_200_returns_body_witness :
    query_huggingface PyValue.null bLoadLoadOk 3 =
      ⟨PyValue.list [PyValue.dict [("generated_text", PyValue.str "p hello  ")]],
       [1, 2], [loadingMsg 1, loadingMsg 2], []⟩ ∧
    1 + 2 ≤ (query_huggingface PyValue.null bLoadLoadOk 3).sleeps.sum :=
  hf_503_503_200_returns_body PyValue.null bLoadLoadOk
    "loading" "loading" "ok" PyValue.null PyValue.null
    (PyValue.list [PyValue.dict [("generated_text", PyValue.str "p hello  ")]])
    rfl rfl rfl

/-- Counterexample to claim C3 as stated: when every attempt returns
HTTP 503, the loop sleeps only after the two non-final attempts, so the
total backoff pause is 1 + 2 = 3 seconds, never reaching the claimed
worst case of 1 + 2 + 4 = 7 seconds. -/
theorem hf_all_503_total_wait_counterexample :
    (query_huggingface PyValue.null bAll503 3).sleeps = [1, 2] ∧
    (query_huggingface PyValue.null bAll503 3).sleeps.sum = 3 ∧
    (query_huggingface PyValue.null bAll503 3).sleeps.sum ≠ 7 := by
  refine ⟨rfl, rfl, ?_⟩
  decide

/-- Claim C3 (amended): if every attempt of query_huggingface returns
HTTP 503, the client retries sequentially with backoff pauses totalling
1 + 2 = 3 seconds in the worst case (sleep happens only after non-final
attempts, so no 2^2 = 4 second pause occurs), then gives up with the
generic "Max retries exceeded" error result. -/
theorem hf_all_503_gives_up
    (payload : PyValue) (backend : PyValue → Nat → Attempt)
    (t0 t1 t2 : String) (b0 b1 b2 : PyValue)
    (h0 : backend payload 0 = .resp 503 t0 b0)
    (h1 : backend payload 1 = .resp 503 t1 b1)
    (h2 : backend payload 2 = .resp 503 t2 b2) :
    query_huggingface payload backend 3 =
      ⟨errDict "Max retries exceeded", [1, 2], [loadingMsg 1, loadingMsg 2], []⟩ ∧
    (query_huggingface payload backend 3).sleeps.sum = 3 := by
  have hmain : query_huggingface payload backend 3 =
      ⟨errDict "Max retries exceeded", [1, 2], [loadingMsg 1, loadingMsg 2], []⟩ := by
    show queryLoop payload backend 3 0 3 = _
    rw [show queryLoop payload backend 3 0 3 =
          queryStep 3 0 (backend payload 0) (queryLoop payload backend 3 1 2) from rfl, h0,
        show queryLoop payload backend 3 1 2 =
          queryStep 3 1 (backend payload 1) (queryLoop payload backend 3 2 1) from rfl, h1,
        show queryLoop payload backend 3 2 1 =
          queryStep 3 2 (backend payload 2) (queryLoop payload backend 3 3 0) from rfl, h2]
    rfl
  refine ⟨hmain, ?_⟩
  rw [hmain]
  show ([1, 2] : List Nat).sum = 3
  decide

/-- Witness for the amended C3 at a concrete backend. -/
theorem hf_all_503_gives_up_witness :
    query_huggingface PyValue.null bAll503 3 =
      ⟨errDict "Max retries exceeded", [1, 2], [loadingMsg 1, loadingMsg 2], []⟩ ∧
    (query_huggingface PyValue.null bAll503 3).sleeps.sum = 3 :=
  hf_all_503_gives_up PyValue.null bAll503 "loading" "loading" "loading"
    PyValue.null PyValue.null PyValue.null rfl rfl rfl

/-- Counterexample to claim C4 as stated: on a first-attempt HTTP 404
with response text "Not Found", the returned error object is
the dict with message "HTTP 404"; it carries the status code but NOT
the response text ("Not Found" is not a substring of "HTTP 404").  The
response text appears only in the displayed st.error message. -/
theorem hf_non503_error_object_counterexample :
    (query_huggingface PyValue.null b404 3).result = errDict "HTTP 404" ∧
    strContains "HTTP 404" "Not Found" = false ∧
    (query_huggingface PyValue.null b404 3).errors = ["API Error: 404 - Not Found"] := by
  refine ⟨rfl, ?_, rfl⟩
  decide

/-- Claim C4 (amended): for every response status other than 200 and 503
(e.g. HTTP 404 on the first attempt), query_huggingface returns
immediately on that attempt without sleeping and without further
attempts, with an error object carrying the status code ("HTTP <code>");
the response text is surfaced only in the displayed st.error message,
not in the returned error object. -/
theorem hf_non503_fails_immediately
    (payload : PyValue) (backend : PyValue → Nat → Attempt)
    (status : Nat) (text : String) (body : PyValue)
    (hs200 : status ≠ 200) (hs503 : status ≠ 503)
    (h0 : backend payload 0 = .resp status text body) :
    query_huggingface payload backend 3 =
      ⟨errDict ("HTTP " ++ toString status), [], [],
       ["API Error: " ++ toString status ++ " - " ++ text]⟩ := by
  show queryLoop payload backend 3 0 3 = _
  rw [show queryLoop payload backend 3 0 3 =
        queryStep 3 0 (backend payload 0) (queryLoop payload backend 3 1 2) from rfl, h0]
  simp [queryStep, hs200, hs503]

/-- Witness for the amended C4 at a concrete 404 backend. -/
theorem hf_non503_fails_immediately_witness :
    query_huggingface PyValue.null b404 3 =
      ⟨errDict ("HTTP " ++ toString 404), [], [],
       ["API Error: " ++ toString 404 ++ " - " ++ "Not Found"]⟩ :=
  hf_non503_fails_immediately PyValue.null b404 404 "Not Found" PyValue.null
    (by decide) (by decide) rfl

/-- Claim C5: if every attempt raises a network-level RequestException,
query_huggingface sleeps a fixed 1 second after each non-final attempt
and, after the configured 3 attempts, returns an error object whose
detail is exactly (hence contains) the final exception's message. -/
theorem hf_exception_retries_then_error
    (payload : PyValue) (backend : PyValue → Nat → Attempt)
    (m0 m1 m2 : String)
    (h0 : backend payload 0 = .exc m0)
    (h1 : backend payload 1 = .exc m1)
    (h2 : backend payload 2 = .exc m2) :
    query_huggingface payload backend 3 =
      ⟨errDict m2, [1, 1], [retryMsg 0 3, retryMsg 1 3], ["Request failed: " ++ m2]⟩ := by
  show queryLoop payload backend 3 0 3 = _
  rw [show queryLoop payload backend 3 0 3 =
        queryStep 3 0 (backend payload 0) (queryLoop payload backend 3 1 2) from rfl, h0,
      show queryLoop payload backend 3 1 2 =
        queryStep 3 1 (backend payload 1) (queryLoop payload backend 3 2 1) from rfl, h1,
      show queryLoop payload backend 3 2 1 =
        queryStep 3 2 (backend payload 2) (queryLoop payload backend 3 3 0) from rfl, h2]
  rfl

/-- Witness for C5 at a concrete always-failing backend. -/
theorem hf_exception_retries_then_error_witness :
    query_huggingface PyValue.null bConnFail 3 =
      ⟨errDict "connection refused", [1, 1], [retryMsg 0 3, retryMsg 1 3],
       ["Request failed: " ++ "connection refused"]⟩ :=
  hf_exception_retries_then_error PyValue.null bConnFail
    "connection refused" "connection refused" "connection refused" rfl rfl rfl

/-- Concrete backend answering 200 with the reply
[{"generated_text": "p hello  "}, "error"]: a non-empty sequence whose
first element has a generated-text field, but which also contains the
bare string "error", so `"error" in result` is True and the error
branch indexes a list with a string key. -/
def bErrorElem : PyValue → Nat → Attempt := fun _ _ =>
  .resp 200 "" (.list [.dict [("generated_text", .str "hi")], .str "error"])

/-- Counterexample to claim C2 as stated: on the 200 reply
[{"generated_text": "hi"}, "error"] - a non-empty sequence whose first
element has a generated-text field - get_ai_response does not return the
stripped generated text "hi": the `"error" in result` membership test is
True for this list, the error branch evaluates result["error"] on a
list, and the resulting TypeError propagates uncaught (it is raised
before the try block). -/
theorem hf_extract_error_element_counterexample :
    get_ai_response "p" bErrorElem =
      .error "TypeError: list indices must be integers or slices, not str" ∧
    get_ai_response "p" bErrorElem ≠ .ok "hi" := by
  refine ⟨rfl, ?_⟩
  intro h
  rw [show get_ai_response "p" bErrorElem =
        .error "TypeError: list indices must be integers or slices, not str" from rfl] at h
  exact Except.noConfusion h

/-- Claim C2 (amended): for every prompt and every 200 reply that is a
non-empty sequence whose first element carries a string-valued
generated-text field, and which does not also contain the bare string
"error" as an element (which would divert the reply into the error
branch and raise), get_ai_response returns that generated text with a
leading echo of the prompt removed (when the text starts with the
prompt) and surrounding whitespace trimmed, and returns the
"I'm not sure how to respond to that." placeholder - never the empty
string - whenever the result is empty after stripping and trimming. -/
theorem hf_extract_generated_text
    (prompt t g : String) (backend : PyValue → Nat → Attempt)
    (es : List (String × PyValue)) (rest : List PyValue)
    (hb : backend (buildPayload prompt) 0 = .resp 200 t (.list (.dict es :: rest)))
    (hg : lookupEntry es "generated_text" = some (.str g))
    (hne : (PyValue.dict es :: rest).any (pyEqStr "error") = false) :
    get_ai_response prompt backend =
      .ok (if (if pyStartsWith g prompt then pyStrip (pyDrop g prompt.length) else pyStrip g) = ""
           then notSureMsg
           else (if pyStartsWith g prompt then pyStrip (pyDrop g prompt.length) else pyStrip g)) ∧
    get_ai_response prompt backend ≠ .ok "" := by
  have hq : (query_huggingface (buildPayload prompt) backend 3).result =
      .list (.dict es :: rest) := by
    rw [show query_huggingface (buildPayload prompt) backend 3 =
          queryStep 3 0 (backend (buildPayload prompt) 0)
            (queryLoop (buildPayload prompt) backend 3 1 2) from rfl, hb]
    rfl
  have hmain : get_ai_response prompt backend =
      .ok (if (if pyStartsWith g prompt then pyStrip (pyDrop g prompt.length) else pyStrip g) = ""
           then notSureMsg
           else (if pyStartsWith g prompt then pyStrip (pyDrop g prompt.length) else pyStrip g)) := by
    show extractResponse prompt (query_huggingface (buildPayload prompt) backend 3).result = _
    rw [hq]
    simp only [extractResponse, pyContains, hne, extractTry, pyGet, hg, Option.getD]
  refine ⟨hmain, ?_⟩
  rw [hmain]
  intro h
  injection h with h
  by_cases hresp :
      (if pyStartsWith g prompt then pyStrip (pyDrop g prompt.length) else pyStrip g) = ""
  · rw [if_pos hresp] at h
    have : notSureMsg ≠ "" := by decide
    exact this h
  · rw [if_neg hresp] at h
    exact hresp h

/-- Concrete backend answering 200 with [{"generated_text": "p hello  "}]. -/
def bEcho : PyValue → Nat → Attempt := fun _ _ =>
  .resp 200 "" (.list [.dict [("generated_text", .str "p hello  ")]])

/-- Witness for the amended C2: prompt "p", generated text "p hello  ";
the echo of the prompt is removed and the rest trimmed to "hello". -/
theorem hf_extract_generated_text_witness :
    (get_ai_response "p" bEcho =
      .ok (if (if pyStartsWith "p hello  " "p" then pyStrip (pyDrop "p hello  " "p".length)
               else pyStrip "p hello  ") = ""
           then notSureMsg
           else (if pyStartsWith "p hello  " "p" then pyStrip (pyDrop "p hello  " "p".length)
                 else pyStrip "p hello  ")) ∧
     get_ai_response "p" bEcho ≠ .ok "") ∧
    get_ai_response "p" bEcho = .ok "hello" :=
  ⟨hf_extract_generated_text "p" "" "p hello  " bEcho
    [("generated_text", .str "p hello  ")] [] rfl rfl rfl, rfl⟩

/-- Concrete backend answering 200 with the JSON body 5 (an integer). -/
def bInt5 : PyValue → Nat → Attempt := fun _ _ => .resp 200 "5" (.int 5)

/-- Counterexample to claim C6 as stated: the 200 reply 5 (a JSON
number) is a non-error reply that is not a non-empty sequence, yet
get_ai_response does not return the generic string: the membership test
`"error" in result` raises TypeError on an int, outside the try block,
so extraction propagates an unhandled failure instead of returning a
string. -/
theorem hf_extract_int_counterexample :
    get_ai_response "p" bInt5 =
      .error "TypeError: argument of type int is not iterable" ∧
    get_ai_response "p" bInt5 ≠ .ok didntGetMsg := by
  refine ⟨rfl, ?_⟩
  intro h
  rw [show get_ai_response "p" bInt5 =
        .error "TypeError: argument of type int is not iterable" from rfl] at h
  exact Except.noConfusion h

/-- Claim C6 (amended): for every 200 reply on which the pre-try
membership test `"error" in result` is defined and False (for a JSON
number, boolean or null it raises TypeError outside the try block and
propagates), get_ai_response returns a string: the generic
"I didn't get a proper response. Please try again." string whenever the
reply is not a non-empty sequence, and in every such case any exception
raised inside the extraction try block is caught and turned into a
formatted error string. -/
theorem hf_extract_fallback_and_catch
    (u t : String) (backend : PyValue → Nat → Attempt) (r : PyValue)
    (hb : backend (buildPayload u) 0 = .resp 200 t r)
    (hc : pyContains "error" r = .ok false) :
    (isNonEmptyList r = false → get_ai_response u backend = .ok didntGetMsg) ∧
    exceptIsOk (get_ai_response u backend) = true := by
  have hq : (query_huggingface (buildPayload u) backend 3).result = r := by
    rw [show query_huggingface (buildPayload u) backend 3 =
          queryStep 3 0 (backend (buildPayload u) 0)
            (queryLoop (buildPayload u) backend 3 1 2) from rfl, hb]
    rfl
  have hgr : get_ai_response u backend =
      match extractTry u r with
      | .ok s => .ok s
      | .error e => .ok ("Error processing response: " ++ e) := by
    show extractResponse u (query_huggingface (buildPayload u) backend 3).result = _
    rw [hq]
    simp only [extractResponse, hc]
  constructor
  · intro hne
    rw [hgr]
    match r, hne with
    | .str s, _ => rfl
    | .int n, _ => rfl
    | .float q, _ => rfl
    | .bool b, _ => rfl
    | .null, _ => rfl
    | .list [], _ => rfl
    | .dict es, _ => rfl
  · rw [hgr]
    cases hE : extractTry u r with
    | ok s => rfl
    | error e => rfl

/-- Concrete backend answering 200 with the reply {} (an empty JSON
object): not an error dict and not a non-empty sequence. -/
def bEmptyDict : PyValue → Nat → Attempt := fun _ _ => .resp 200 "" (.dict [])

/-- Witness for the amended C6 at the empty-object reply. -/
theorem hf_extract_fallback_and_catch_witness :
    ((isNonEmptyList (PyValue.dict []) = false →
        get_ai_response "p" bEmptyDict = .ok didntGetMsg) ∧
     exceptIsOk (get_ai_response "p" bEmptyDict) = true) ∧
    get_ai_response "p" bEmptyDict = .ok didntGetMsg :=
  ⟨hf_extract_fallback_and_catch "p" "" bEmptyDict (PyValue.dict []) rfl rfl, rfl⟩

/-- Claim C7: for every prompt and model, query_ollama returns the
body's "response" field on an HTTP 200 answer, returns the
"No response generated." placeholder when that field is absent from a
200 body, and on any non-200 status returns the formatted user-visible
string "Error: <status> - <body>" (a plain string, not a structured
error object). -/
theorem ollama_query_response_extraction
    (u m text r : String) (s : Nat) (b : PyValue)
    (es esAbsent : List (String × PyValue))
    (hr : lookupEntry es "response" = some (.str r))
    (hn : lookupEntry esAbsent "response" = none)
    (hs : s ≠ 200) :
    query_ollama u m (.resp 200 text (.dict es)) = .str r ∧
    query_ollama u m (.resp 200 text (.dict esAbsent)) = .str "No response generated." ∧
    query_ollama u m (.resp s text b) =
      .str ("Error: " ++ toString s ++ " - " ++ text) := by
  refine ⟨?_, ?_, ?_⟩
  · simp [query_ollama, hr]
  · simp [query_ollama, hn]
  · simp only [query_ollama]
    rw [if_neg hs]

/-- Witness for C7 at concrete bodies and a concrete 404. -/
theorem ollama_query_response_extraction_witness :
    query_ollama "hi" "llama" (.resp 200 "not found" (.dict [("response", .str "yo")])) =
      .str "yo" ∧
    query_ollama "hi" "llama" (.resp 200 "not found" (.dict [("done", .bool true)])) =
      .str "No response generated." ∧
    query_ollama "hi" "llama" (.resp 404 "not found" PyValue.null) =
      .str ("Error: " ++ toString 404 ++ " - " ++ "not found") :=
  ollama_query_response_extraction "hi" "llama" "not found" "yo" 404 PyValue.null
    [("response", .str "yo")] [("done", .bool true)] rfl rfl (by decide)

/-- Claim C8: on any raised request exception (connection refused,
timeout, ...), check_ollama_status returns a result dict marking the
backend unreachable (reachable=False plus the error message) instead of
raising, and get_available_models returns the empty list instead of
raising; get_available_models also returns the empty list on every
non-200 listing response. -/
theorem ollama_probe_failures_swallowed
    (o : OllamaOutcome) (s : Nat) (text : String) (b : PyValue)
    (ho : isRequestExc o = true) (hs : s ≠ 200) :
    check_ollama_status o = .dict [("reachable", .bool false), ("error", .str (outcomeMsg o))] ∧
    get_available_models o = [] ∧
    get_available_models (.resp s text b) = [] := by
  refine ⟨?_, ?_, ?_⟩
  · cases o with
    | resp st t bd => exact absurd ho (by simp [isRequestExc])
    | connError m => rfl
    | timeout m => rfl
    | otherExc m => rfl
  · cases o with
    | resp st t bd => exact absurd ho (by simp [isRequestExc])
    | connError m => rfl
    | timeout m => rfl
    | otherExc m => rfl
  · simp only [get_available_models]
    rw [if_neg hs]

/-- Witness for C8: a refused connection and a 500 listing response. -/
theorem ollama_probe_failures_swallowed_witness :
    check_ollama_status (.connError "refused") =
      .dict [("reachable", .bool false),
             ("error", .str (outcomeMsg (.connError "refused")))] ∧
    get_available_models (.connError "refused") = [] ∧
    get_available_models (.resp 500 "boom" PyValue.null) = [] :=
  ollama_probe_failures_swallowed (.connError "refused") 500 "boom" PyValue.null
    rfl (by decide)

/-- Claim C10: for every outcome of the status GET - HTTP 200, any
non-200 status, or a raised request exception - check_ollama_status
returns a dict with at least one entry, which is truthy in Python; so
the sidebar label `'🟢 Online' if ollama_status else '🔴 Offline'`
always shows Online and the `if not ollama_status:` chat gate never
blocks, even when the dict reports reachable=False. -/
theorem ollama_status_always_truthy (o : OllamaOutcome) :
    pyTruthy (check_ollama_status o) = true ∧
    ollamaStatusLabel (check_ollama_status o) = "🟢 Online" ∧
    chatBlocked (check_ollama_status o) = false := by
  have ht : pyTruthy (check_ollama_status o) = true := by
    cases o with
    | resp st t bd => rfl
    | connError m => rfl
    | timeout m => rfl
    | otherExc m => rfl
  refine ⟨ht, ?_, ?_⟩
  · rw [ollamaStatusLabel, if_pos ht]
  · rw [chatBlocked, ht]
    rfl

/-- Helper: taking the length of the left part of an append returns it. -/
theorem take_length_append {α : Type} (l₁ l₂ : List α) :
    (l₁ ++ l₂).take l₁.length = l₁ := by
  induction l₁ with
  | nil => rfl
  | cons a t ih => simp [ih]

/-- Claim C9: clearing resets the conversation log to []; starting from
the cleared log, a submission appends exactly one user turn (length 1)
and then exactly one assistant turn carrying the derived response
(length 2); and for every prior log, a submission only appends - the
original log is an unchanged prefix of the new one. -/
theorem session_log_clear_and_append
    (backend : PyValue → Nat → Attempt) (log : List Turn) (prompt p resp : String)
    (h : get_ai_response prompt backend = .ok resp) :
    stepSession backend log .clearChat = [] ∧
    afterUserTurn [] prompt = [⟨"user", prompt⟩] ∧
    (afterUserTurn [] prompt).length = 1 ∧
    stepSession backend [] (.submit prompt) = [⟨"user", prompt⟩, ⟨"assistant", resp⟩] ∧
    (stepSession backend [] (.submit prompt)).length = 2 ∧
    (stepSession backend log (.submit p)).take log.length = log := by
  refine ⟨rfl, rfl, rfl, ?_, ?_, ?_⟩
  · simp only [stepSession, h]
    rfl
  · simp only [stepSession, h]
    rfl
  · cases hE : get_ai_response p backend with
    | ok s =>
      simp only [stepSession, hE, afterUserTurn, List.append_assoc]
      exact take_length_append log _
    | error e =>
      simp only [stepSession, hE, afterUserTurn]
      exact take_length_append log _

/-- Witness for C9: a concrete backend, a concrete prior log and a
concrete prompt whose derived response is "hello". -/
theorem session_log_clear_and_append_witness :
    stepSession bEcho [⟨"user", "old"⟩] .clearChat = [] ∧
    afterUserTurn [] "p" = [⟨"user", "p"⟩] ∧
    (afterUserTurn [] "p").length = 1 ∧
    stepSession bEcho [] (.submit "p") = [⟨"user", "p"⟩, ⟨"assistant", "hello"⟩] ∧
    (stepSession bEcho [] (.submit "p")).length = 2 ∧
    (stepSession bEcho [⟨"user", "old"⟩] (.submit "q")).take
      ([⟨"user", "old"⟩] : List Turn).length = [⟨"user", "old"⟩] :=
  session_log_clear_and_append bEcho [⟨"user", "old"⟩] "p" "q" "hello" rfl
